import Mathlib

/-!
# Verification of the pye3d 3D pupil detector against its specification

This file gives a shallow embedding, in Lean 4, of the parts of the
`pye3d` detector relevant to the frozen claims:

* `src/pye3d/detector_3d.py` — the detector orchestrator
  (`Detector3D.update_models`, `Detector3D._predict_pupil_circle`,
  `Detector3D._predict_from_3d_search`, `Detector3D._extract_observation`,
  `_ModelUpdateSchedule`);
* `src/pye3d/two_sphere_model.py` — the two-sphere eye model
  (`TwoSphereModel._extract_ellipse`, `TwoSphereModel.deep_sphere_estimate`,
  `TwoSphereModel._disambiguate_circle_3d_pair`,
  `TwoSphereModel.predict_pupil_circle`).

Modelling conventions:

* Python floats are embedded as exact numbers: control-flow heavy code is
  embedded over `ℚ` (so concrete runs evaluate, by `simp`/`norm_num`),
  while genuinely real-valued geometry (square roots, `π`) is embedded
  over `ℝ`.
* External collaborators that are not part of this repository's sources
  (numpy's pseudo-inverse solver, scipy's `median_filter`, numpy's
  `gradient`, the compiled `get_edges` / `search_on_sphere` routines, the
  Kalman filter, and the per-tier model prediction calls) are passed as
  explicit function/value parameters; the embedded code only depends on
  their results, exactly as the Python code does.
* Repository modules that are referenced but whose sources are not
  available (`pye3d/observation.py`, `pye3d/eye_model/*`,
  `pye3d/geometry/*`) are modelled from the specification; every such
  definition carries a doc comment starting with `Modelled from the spec:`.
* Exceptions are embedded with `Except`; a Python `try`/`except` that
  swallows an error becomes an explicit recovery on the `Except.error`
  branch carrying the state reached at the failure point.
-/

/-! ## Rational 2- and 3-vectors -/

/-- A 2-vector with exact rational coordinates. -/
structure V2q where
  x : ℚ
  y : ℚ
deriving DecidableEq

/-- A 3-vector with exact rational coordinates. -/
structure V3q where
  x : ℚ
  y : ℚ
  z : ℚ
deriving DecidableEq

def V2q.sub (a b : V2q) : V2q := ⟨a.x - b.x, a.y - b.y⟩

def V2q.add (a b : V2q) : V2q := ⟨a.x + b.x, a.y + b.y⟩

def V2q.dot (a b : V2q) : ℚ := a.x * b.x + a.y * b.y

def V3q.sub (a b : V3q) : V3q := ⟨a.x - b.x, a.y - b.y, a.z - b.z⟩

def V3q.add (a b : V3q) : V3q := ⟨a.x + b.x, a.y + b.y, a.z + b.z⟩

def V3q.smul (c : ℚ) (v : V3q) : V3q := ⟨c * v.x, c * v.y, c * v.z⟩

def V3q.dot (a b : V3q) : ℚ := a.x * b.x + a.y * b.y + a.z * b.z

/-! ## The model update schedule (`_ModelUpdateSchedule`, detector_3d.py:597-626)

State and transitions are taken verbatim from the source: the state holds
`update_interval`, `warmup_duration`, `_warmup_start`, `_paused` and
`_last_update`; `is_update_due` both reports whether an update is due and
mutates the timers, so it is embedded as a function returning the flag
together with the successor state. Timestamps are embedded as `ℚ`. -/

structure ScheduleState where
  updateInterval : ℚ
  warmupDuration : ℚ
  warmupStart : Option ℚ
  paused : Bool
  lastUpdate : Option ℚ
deriving DecidableEq

/-- `_ModelUpdateSchedule.__init__(update_interval, warmup_duration)`. -/
def ScheduleState.init (updateInterval warmupDuration : ℚ) : ScheduleState :=
  { updateInterval := updateInterval
    warmupDuration := warmupDuration
    warmupStart := none
    paused := false
    lastUpdate := none }

/-- `_ModelUpdateSchedule.pause` (detector_3d.py:605-606). -/
def ScheduleState.pause (s : ScheduleState) : ScheduleState :=
  { s with paused := true }

/-- `_ModelUpdateSchedule.resume` (detector_3d.py:608-610). -/
def ScheduleState.resume (s : ScheduleState) : ScheduleState :=
  { s with paused := false, lastUpdate := none }

/-- `_ModelUpdateSchedule.is_update_due(current_time)`
(detector_3d.py:612-626), returning the flag and the mutated state. -/
def ScheduleState.isUpdateDue (s : ScheduleState) (currentTime : ℚ) :
    Bool × ScheduleState :=
  if s.paused then (false, s)
  else
    match s.warmupStart with
    | none => (true, { s with warmupStart := some currentTime })
    | some w0 =>
      if currentTime - w0 < s.warmupDuration then (true, s)
      else
        match s.lastUpdate with
        | none => (true, { s with lastUpdate := some currentTime })
        | some lu =>
          if currentTime - lu > s.updateInterval then
            (true, { s with lastUpdate := some currentTime })
          else (false, s)

/-! ## Detector tier state and `Detector3D.update_models` (detector_3d.py:260-304)

The three model tiers are instances of the eye-model class, whose source
(`pye3d/eye_model/*`, `pye3d/observation.py`) is not under `src/`; the
tier-local behaviour used by `update_models` is modelled from the spec.
The three least-squares estimation calls of one cycle delegate to numpy's
solver, which may raise (`numpy.linalg.LinAlgError: SVD did not converge`,
detector_3d.py:299-303); each call's outcome is therefore an explicit
`Except Unit (V3q × V3q)` parameter carrying, on success, the new
`sphere_center` and `corrected_sphere_center`. -/

/-- Modelled from the spec: per-tier model state, §3 "Model state:
`sphere_center` (3-vector, the current 3D estimate),
`corrected_sphere_center` (post refraction-correction)" plus the storage
occupancy count and the per-storage confidence threshold of §4.3
(the storage class itself lives in `pye3d/observation.py`, not under
`src/`). -/
structure TierState where
  sphereCenter : V3q
  correctedSphereCenter : V3q
  nObservations : ℕ
  confidenceThreshold : ℚ
deriving DecidableEq

/-- Modelled from the spec: `add_observation` forwards to the owned
storage, and "Both policies reject observations below a per-storage
confidence threshold at `add()` time" (§4.3, §4.5). Only the retained
count matters to `update_models`. -/
def TierState.addObservation (t : TierState) (confidence : ℚ) : TierState :=
  if confidence < t.confidenceThreshold then t
  else { t with nObservations := t.nObservations + 1 }

/-- Modelled from the spec: a successful `estimate_sphere_center` call
ends with "Update `sphere_center`; recompute `corrected_sphere_center`
via the refraction-correction collaborator" (§4.5). -/
def TierState.setEstimate (t : TierState) (e : V3q × V3q) : TierState :=
  { t with sphereCenter := e.1, correctedSphereCenter := e.2 }

/-- The detector state visible to `update_models`: the three tiers and the
two schedules (detector_3d.py:156-214). -/
structure DetectorState where
  shortTerm : TierState
  longTerm : TierState
  ultraLongTerm : TierState
  longSchedule : ScheduleState
  ultSchedule : ScheduleState
deriving DecidableEq

/-- The body of the `try:` block of `Detector3D.update_models`
(detector_3d.py:272-298). An `Except.error` carries the detector state
reached at the point where the raising call was made: Python unwinds to
the `except` handler without undoing completed assignments. The
ultra-long-term step runs first; the long-term step runs only if it did
not raise; the short-term estimate runs last, every cycle. Schedule
queries mutate the schedule timers as in the source. The value of the
long-term estimate (used only to parameterize the short-term call, whose
own outcome is the `shortEst` oracle) does not affect the stored state
and is not tracked. -/
def updateModelsTry (d : DetectorState) (timestamp : ℚ)
    (ultEst longEst shortEst : Except Unit (V3q × V3q)) :
    Except DetectorState DetectorState :=
  let p1 := d.ultSchedule.isUpdateDue timestamp
  let d1 := { d with ultSchedule := p1.2 }
  let step1 : Except DetectorState DetectorState :=
    if p1.1 then
      match ultEst with
      | .ok e => .ok { d1 with ultraLongTerm := d1.ultraLongTerm.setEstimate e }
      | .error _ => .error d1
    else .ok d1
  match step1 with
  | .error dE => .error dE
  | .ok d2 =>
    let p2 := d2.longSchedule.isUpdateDue timestamp
    let d3 := { d2 with longSchedule := p2.2 }
    let step2 : Except DetectorState DetectorState :=
      if p2.1 then
        match longEst with
        | .ok e => .ok { d3 with longTerm := d3.longTerm.setEstimate e }
        | .error _ => .error d3
      else .ok d3
    match step2 with
    | .error dE => .error dE
    | .ok d4 =>
      match shortEst with
      | .ok e => .ok { d4 with shortTerm := d4.shortTerm.setEstimate e }
      | .error _ => .error d4

/-- `Detector3D.update_models(observation)` (detector_3d.py:260-304): add
the observation to all three storages; return early if any storage is
still empty; otherwise run the fitting sequence, catching (and logging)
any exception — the state reached at the failure point is kept. -/
def update_models (d : DetectorState) (confidence timestamp : ℚ)
    (ultEst longEst shortEst : Except Unit (V3q × V3q)) : DetectorState :=
  let dAdd : DetectorState :=
    { d with
      shortTerm := d.shortTerm.addObservation confidence
      longTerm := d.longTerm.addObservation confidence
      ultraLongTerm := d.ultraLongTerm.addObservation confidence }
  if dAdd.shortTerm.nObservations = 0 ∨ dAdd.longTerm.nObservations = 0 ∨
      dAdd.ultraLongTerm.nObservations = 0 then dAdd
  else
    match updateModelsTry dAdd timestamp ultEst longEst shortEst with
    | .ok dFinal => dFinal
    | .error dFinal => dFinal

/-! ## Circles and the per-frame prediction (`Detector3D._predict_pupil_circle`,
`Detector3D._correct_kalman_filter`, `Detector3D._predict_from_3d_search`,
detector_3d.py:323-472)

`Circle` lives in `pye3d/geometry/primitives.py`, which is not under
`src/`; the fields and the null sentinel are modelled from the spec and
from the sentinel values the available sources construct. -/

/-- Modelled from the spec: a 3D circle, §3 "Circle3D: center (3-vector),
unit normal (3-vector), radius ≥ 0", with exact rational coordinates. -/
structure CircleQ where
  center : V3q
  normal : V3q
  radius : ℚ
deriving DecidableEq

/-- Modelled from the spec: the null-circle sentinel `Circle.null()`
(§3: "A 'null circle' sentinel ... represents 'no valid circle'"). The
sentinel built by the available sources is
`Circle([0.0, 0.0, 0.0], [0.0, 0.0, -1.0], 0.0)`
(two_sphere_model.py:195, 238). -/
def CircleQ.null : CircleQ := ⟨⟨0, 0, 0⟩, ⟨0, 0, -1⟩, 0⟩

/-- Modelled from the spec: `Circle.is_null()`. Since the null sentinel of
the available sources has the nonzero normal `[0, 0, -1]`, the sentinel
test must be on the radius: a circle is null exactly when its radius is
zero. -/
def CircleQ.isNull (c : CircleQ) : Bool := c.radius == 0

/-- `Detector3D._predict_from_3d_search(frame, best_guess)`
(detector_3d.py:377-472), with the compiled collaborators passed as
parameters: `edges` is the edge list produced by `get_edges`,
`searchGaze`/`searchRadius`/`finalEdges` are the results of
`search_on_sphere`, and `projCircumference` composes
`project_circle_into_image_plane` with `Ellipse.circumference`,
returning `none` when the projection fails. `sphereCenter` is
`self.long_term_model.sphere_center` and `eyeRadius` is
`_EYE_RADIUS_DEFAULT`. Returns the `Search3DResult` pair
(circle, confidence). -/
def predict_from_3d_search (sphereCenter : V3q) (eyeRadius : ℚ)
    (edges : List V3q) (searchGaze : V3q) (searchRadius : ℚ)
    (finalEdges : List V3q) (projCircumference : CircleQ → Option ℚ)
    (bestGuess : CircleQ) : CircleQ × ℚ :=
  if bestGuess.isNull then (CircleQ.null, 0)
  else if edges.length = 0 then (CircleQ.null, 0)
  else
    let pupilCenter := sphereCenter.add (V3q.smul eyeRadius searchGaze)
    let pupilCircle : CircleQ := ⟨pupilCenter, searchGaze, searchRadius⟩
    if pupilCircle.isNull then (pupilCircle, 0)
    else
      match projCircumference pupilCircle with
      | none => (pupilCircle, 0)
      | some circumference =>
        (pupilCircle, min (max ((finalEdges.length : ℚ) / circumference) 0) 1)

/-- `Detector3D._predict_pupil_circle(observation, frame)` together with
`Detector3D._correct_kalman_filter` (detector_3d.py:323-375). The
Kalman-filter prediction (`kalmanCircle`, detector_3d.py:358-368), the
two model predictions (`shortPrediction`, `longPrediction`) and the 3D
search (`search3d`, applied to the best-guess circle) are external to
this function and passed as parameters. Returns the pupil circle, the
possibly-overwritten observation confidence, and the circle handed to the
Kalman filter's correction step (`none` when no correction happens; when
it happens, `KalmanFilter.correct` receives the circle's spherical
representation, detector_3d.py:374-375). -/
def detector_predict_pupil_circle (thresholdSwirski thresholdKalman : ℚ)
    (search3d : CircleQ → CircleQ × ℚ)
    (kalmanCircle shortPrediction longPrediction : CircleQ)
    (confidence : ℚ) : CircleQ × ℚ × Option CircleQ :=
  let pc : CircleQ × ℚ :=
    if thresholdSwirski < confidence then
      (⟨longPrediction.center, shortPrediction.normal, longPrediction.radius⟩,
        confidence)
    else search3d kalmanCircle
  let kalmanCorrection : Option CircleQ :=
    if thresholdKalman < pc.2 ∧ pc.1.isNull = false then some pc.1 else none
  (pc.1, pc.2, kalmanCorrection)

/-! ## `TwoSphereModel.deep_sphere_estimate` (two_sphere_model.py:90-186)

The fitting routine is a `@staticmethod` whose smoothing state
(`prev_center`, `prev_disambiguation`, `prev_t`) is declared `global`:
it lives at module level and is shared by every `TwoSphereModel`
instance in the process. The embedding threads that module-level state
explicitly as `FitGlobals`.

Observations come from `pye3d/observation.py` (not under `src/`); only
the fields `deep_sphere_estimate` reads are modelled, as plain data:
the timestamp, the summation blocks of `aux_2d` (its `[:2, :2]` block
and `[:2, 2]` column) and of `aux_3d` (per ambiguous solution, the
`[:3, :3]` block and `[:3, 3]` column), the projected gaze line
`gaze_2d` (origin and direction), and the origins of the two candidate
Dierkes lines (`get_Dierkes_line(idx).origin`). Summing whole `aux`
arrays and then slicing, as the Python does, equals summing the slices.

numpy's pseudo-inverse solves (`np.linalg.pinv(..) @ ..`), scipy's
`median_filter(residuals, 50)` and numpy's `gradient` are external
collaborators, passed as function parameters `solve2`, `solve3`,
`medianFilter` and `gradient`. -/

/-- A rational 3×3 matrix, row by row. -/
structure Mat3 where
  m11 : ℚ
  m12 : ℚ
  m13 : ℚ
  m21 : ℚ
  m22 : ℚ
  m23 : ℚ
  m31 : ℚ
  m32 : ℚ
  m33 : ℚ
deriving DecidableEq

def Mat3.mulVec (m : Mat3) (v : V3q) : V3q :=
  ⟨m.m11 * v.x + m.m12 * v.y + m.m13 * v.z,
   m.m21 * v.x + m.m22 * v.y + m.m23 * v.z,
   m.m31 * v.x + m.m32 * v.y + m.m33 * v.z⟩

def Mat3.zero : Mat3 := ⟨0, 0, 0, 0, 0, 0, 0, 0, 0⟩

def Mat3.one : Mat3 := ⟨1, 0, 0, 0, 1, 0, 0, 0, 1⟩

def Mat3.add (a b : Mat3) : Mat3 :=
  ⟨a.m11 + b.m11, a.m12 + b.m12, a.m13 + b.m13,
   a.m21 + b.m21, a.m22 + b.m22, a.m23 + b.m23,
   a.m31 + b.m31, a.m32 + b.m32, a.m33 + b.m33⟩

/-- The summation-relevant part of an observation's `aux_2d` matrix: the
`[:2, :2]` block (stored row by row) and the `[:2, 2]` column. -/
structure Aux2 where
  m11 : ℚ
  m12 : ℚ
  m21 : ℚ
  m22 : ℚ
  v1 : ℚ
  v2 : ℚ
deriving DecidableEq

def Aux2.zero : Aux2 := ⟨0, 0, 0, 0, 0, 0⟩

def Aux2.add (a b : Aux2) : Aux2 :=
  ⟨a.m11 + b.m11, a.m12 + b.m12, a.m21 + b.m21, a.m22 + b.m22,
   a.v1 + b.v1, a.v2 + b.v2⟩

/-- The summation-relevant part of one ambiguous solution's `aux_3d`
matrix: the `[:3, :3]` block and the `[:3, 3]` column. -/
structure Aux3 where
  m : Mat3
  v : V3q
deriving DecidableEq

def Aux3.zero : Aux3 := ⟨Mat3.zero, ⟨0, 0, 0⟩⟩

def Aux3.add (a b : Aux3) : Aux3 := ⟨a.m.add b.m, a.v.add b.v⟩

/-- Modelled from the spec: the observation fields read by
`deep_sphere_estimate` (§3 "Observation": timestamp, the `aux_2d`/`aux_3d`
accumulation matrices, the ambiguous circle pair's projected gaze line,
and the two candidate Dierkes lines of the pair — §Glossary). All are
immutable data computed at construction time in `pye3d/observation.py`,
which is not under `src/`. -/
structure Obs where
  timestamp : ℚ
  aux2d : Aux2
  aux3d0 : Aux3
  aux3d1 : Aux3
  gazeOrigin : V2q
  gazeDir : V2q
  dierkesOrigin0 : V3q
  dierkesOrigin1 : V3q
deriving DecidableEq

/-- `obs.aux_3d[idx]` for a disambiguation index in {0, 1}. -/
def Obs.aux3dAt (o : Obs) (idx : ℕ) : Aux3 :=
  if idx = 1 then o.aux3d1 else o.aux3d0

/-- `obs.get_Dierkes_line(idx).origin` for an index in {0, 1}. -/
def Obs.dierkesOriginAt (o : Obs) (idx : ℕ) : V3q :=
  if idx = 1 then o.dierkesOrigin1 else o.dierkesOrigin0

/-- One residual of the previous fit (two_sphere_model.py:118-129):
with `v = get_Dierkes_line(idx).origin - prev_center`, the quadratic form
`v.T @ aux_3d[idx, :3, :3] @ v`. -/
def fitResidual (prevCenter : V3q) (o : Obs) (idx : ℕ) : ℚ :=
  let v := (o.dierkesOriginAt idx).sub prevCenter
  v.dot ((o.aux3dAt idx).m.mulVec v)

/-- `np.argmax`: index of the first occurrence of the maximum. -/
def argmaxGo (bestIdx : ℕ) (bestVal : ℚ) (i : ℕ) : List ℚ → ℕ
  | [] => bestIdx
  | v :: rest =>
    if v > bestVal then argmaxGo i v (i + 1) rest
    else argmaxGo bestIdx bestVal (i + 1) rest

def argmax : List ℚ → ℕ
  | [] => 0
  | v :: rest => argmaxGo 0 v 1 rest

/-- Sum of the `aux_2d` summation blocks over a list of observations
(`aux_2d.sum(axis=0)`, two_sphere_model.py:160, restricted to the blocks
the solve reads). -/
def sumAux2 (l : List Obs) : Aux2 :=
  l.foldl (fun acc o => acc.add o.aux2d) Aux2.zero

/-- Sum of the disambiguated `aux_3d` summation blocks
(`aux_3d_disambiguated.sum(axis=0)`, two_sphere_model.py:175-179). -/
def sumAux3 (l : List Obs) (idxs : List ℕ) : Aux3 :=
  (List.zipWith Obs.aux3dAt l idxs).foldl Aux3.add Aux3.zero

/-- The batched disambiguation sign test of `deep_sphere_estimate`
(two_sphere_model.py:163-173): index 1 exactly when the dot product of
(gaze origin - projected sphere center) with the gaze direction is
negative (`np.where(dot_products < 0, 1, 0)`). -/
def disambIndex (projectedSphereCenter : V2q) (o : Obs) : ℕ :=
  if (o.gazeOrigin.sub projectedSphereCenter).dot o.gazeDir < 0 then 1 else 0

def disambIndices (projectedSphereCenter : V2q) (l : List Obs) : List ℕ :=
  l.map (disambIndex projectedSphereCenter)

/-- The module-level smoothing state used by `deep_sphere_estimate`
(`global prev_center, prev_disambiguation, prev_t`,
two_sphere_model.py:97-103): it belongs to the module, not to any
`TwoSphereModel` instance, and is shared by all instances in the
process. -/
structure FitGlobals where
  prevCenter : Option V3q
  prevDisambiguation : Option (List ℕ)
  prevT : Option ℚ
deriving DecidableEq

/-- The fresh module state: all three names unbound, initialized to
`None` on first call (two_sphere_model.py:98-103). -/
def FitGlobals.initial : FitGlobals := ⟨none, none, none⟩

/-- The mean residual of the previous fit over the passed observations
(`np.mean(residuals)`, two_sphere_model.py:131); residuals are zipped
with the previous disambiguation list. -/
def fitCost (prevCenter : V3q) (prevDisambiguation : List ℕ)
    (observations : List Obs) : ℚ :=
  let residuals := List.zipWith (fitResidual prevCenter) observations
    prevDisambiguation
  residuals.sum / (residuals.length : ℚ)

/-- The least-squares fit over a list of observations
(two_sphere_model.py:158-180): solve the 2D normal equations for the
projected sphere center, disambiguate every observation against it, and
solve the disambiguated 3D normal equations for the sphere center.
`solve2`/`solve3` are numpy's `pinv(..) @ ..` collaborators. -/
def fitSphereCenter (solve2 : Aux2 → V2q) (solve3 : Aux3 → V3q)
    (observations : List Obs) : V3q × List ℕ :=
  let projectedSphereCenter := solve2 (sumAux2 observations)
  let idxs := disambIndices projectedSphereCenter observations
  (solve3 (sumAux3 observations idxs), idxs)

/-- `TwoSphereModel.deep_sphere_estimate(observations)`
(two_sphere_model.py:90-186). Returns `(sphere_center, cutoff)` together
with the successor module-level state. When a previous fit is recorded
and its mean residual (the cost) over the passed observations exceeds 2,
the observation list is cut at the timestamp of the observation sitting
at the maximum gradient of the median-filtered residual sequence
(two_sphere_model.py:141-156): only observations with
`timestamp >= cutoff` are kept and the cutoff is returned; otherwise all
observations are used and the returned cutoff is `None`. The diagnostic
`debug_info` dictionary is not consumed downstream (spec §3) and is not
modelled. -/
def deep_sphere_estimate (solve2 : Aux2 → V2q) (solve3 : Aux3 → V3q)
    (medianFilter gradient : List ℚ → List ℚ)
    (g : FitGlobals) (observations : List Obs) :
    (V3q × Option ℚ) × FitGlobals :=
  let cut : List Obs × Option ℚ :=
    match g.prevCenter, g.prevDisambiguation with
    | some pc, some pd =>
      if fitCost pc pd observations > 2 then
        let residuals := List.zipWith (fitResidual pc) observations pd
        let changes := gradient (medianFilter residuals)
        let maxChangeIdx := argmax changes
        let cutoff :=
          ((observations.get? maxChangeIdx).map Obs.timestamp).getD 0
        (observations.filter (fun o => cutoff ≤ o.timestamp), some cutoff)
      else (observations, none)
    | _, _ => (observations, none)
  let fit := fitSphereCenter solve2 solve3 cut.1
  ((fit.1, cut.2),
   { prevCenter := some fit.1
     prevDisambiguation := some fit.2
     prevT := (cut.1.getLast?).map Obs.timestamp })

/-! ## Real-valued geometry: ellipse extraction, disambiguation and pupil
prediction (two_sphere_model.py:57-67, 198-239; detector_3d.py:305-321)

These routines involve `π` and Euclidean norms, so they are embedded over
`ℝ`. The primitive geometric helpers they call live in `pye3d/geometry/*`
(not under `src/`) and are modelled from spec §4.1. -/

/-- A 2-vector with real coordinates. -/
structure V2r where
  x : ℝ
  y : ℝ

/-- A 3-vector with real coordinates. -/
structure V3r where
  x : ℝ
  y : ℝ
  z : ℝ

noncomputable section RealGeometry

def V2r.sub (a b : V2r) : V2r := ⟨a.x - b.x, a.y - b.y⟩

def V2r.dot (a b : V2r) : ℝ := a.x * b.x + a.y * b.y

def V2r.norm (v : V2r) : ℝ := Real.sqrt (v.x ^ 2 + v.y ^ 2)

/-- Modelled from the spec: vector normalization
(`pye3d/geometry/utilities.py:normalize`, `v / np.linalg.norm(v)`). -/
def V2r.normalize (v : V2r) : V2r := ⟨v.x / v.norm, v.y / v.norm⟩

def V3r.sub (a b : V3r) : V3r := ⟨a.x - b.x, a.y - b.y, a.z - b.z⟩

def V3r.add (a b : V3r) : V3r := ⟨a.x + b.x, a.y + b.y, a.z + b.z⟩

def V3r.norm (v : V3r) : ℝ := Real.sqrt (v.x ^ 2 + v.y ^ 2 + v.z ^ 2)

/-- Modelled from the spec: vector normalization
(`pye3d/geometry/utilities.py:normalize`). -/
def V3r.normalize (v : V3r) : V3r := ⟨v.x / v.norm, v.y / v.norm, v.z / v.norm⟩

/-- A 3D circle with real coordinates (`pye3d/geometry/primitives.py`,
fields per spec §3). -/
structure Circle3r where
  center : V3r
  normal : V3r
  radius : ℝ

/-- Modelled from the spec: the pinhole projection of a 3D point into the
optical-axis-centered image plane (§4.1: "project a Circle3D/Sphere3D/
Line3D into image-plane Ellipse2D/point/line given focal length";
`pye3d/geometry/projections.py:project_point_into_image_plane` scales by
`focal_length / z`). -/
def project_point_into_image_plane (focalLength : ℝ) (p : V3r) : V2r :=
  ⟨focalLength * p.x / p.z, focalLength * p.y / p.z⟩

/-- Modelled from the spec: the projection of a 3D line into the image
plane (§4.1); the projected line passes through the projections of the
line's origin and of a second point of the line, its direction being
their difference (`pye3d/geometry/projections.py:
project_line_into_image_plane`). Returns (origin, direction) of the
projected line. -/
def project_line_into_image_plane (focalLength : ℝ) (origin direction : V3r) :
    V2r × V2r :=
  let p := project_point_into_image_plane focalLength origin
  let q := project_point_into_image_plane focalLength (origin.add direction)
  (p, q.sub p)

open Classical in
/-- `TwoSphereModel._disambiguate_circle_3d_pair(circle_3d_pair)`
(two_sphere_model.py:198-215): project the first member's center, its
normal direction, and the current sphere center into the image plane;
return the first member exactly when the dot product of (projected circle
center - projected sphere center) with the normalized projected normal is
non-negative, and the second member otherwise. -/
def disambiguate_circle_3d_pair (focalLength : ℝ) (sphereCenter : V3r)
    (pair : Circle3r × Circle3r) : Circle3r :=
  let circleCenter2d :=
    project_point_into_image_plane focalLength pair.1.center
  let circleNormal2d :=
    (project_line_into_image_plane focalLength pair.1.center pair.1.normal).2.normalize
  let sphereCenter2d :=
    project_point_into_image_plane focalLength sphereCenter
  if 0 ≤ (circleCenter2d.sub sphereCenter2d).dot circleNormal2d then pair.1
  else pair.2

open Classical in
/-- The main branch of `TwoSphereModel.predict_pupil_circle`
(two_sphere_model.py:217-239) for a (disambiguated) circle, on the
default `use_unprojection=False` path. The collaborator
`nearest_point_on_sphere_to_line` lives in
`pye3d/geometry/intersections.py` (not under `src/`; spec §4.1: "compute
a line's closest point to a sphere surface along a ray") and is passed
as the parameter `nps`, taking the sphere center, the sphere radius, the
line origin and the line direction. The guard `if circle_3d:` delegates
to the circle's truthiness in the missing primitives module; per spec §7
(null-geometry short-circuiting) it is modelled as the non-null test,
with the radius-0 sentinel convention of `CircleQ.isNull`. -/
def predict_pupil_circle (nps : V3r → ℝ → V3r → V3r → V3r)
    (eyeRadius : ℝ) (sphereCenter : V3r) (circle3d : Circle3r) : Circle3r :=
  if circle3d.radius = 0 then ⟨⟨0, 0, 0⟩, ⟨0, 0, -1⟩, 0⟩
  else
    let direction := circle3d.center.normalize
    let nearestPointOnSphere := nps sphereCenter eyeRadius ⟨0, 0, 0⟩ direction
    let gazeVector := (nearestPointOnSphere.sub sphereCenter).normalize
    let radius := nearestPointOnSphere.norm / circle3d.center.norm
    ⟨nearestPointOnSphere, gazeVector, radius⟩

/-- The optical-axis-centered, half-axis, corrected-angle ellipse produced
by the two extraction routines (spec §4.2). -/
structure EllipseParams where
  cx : ℝ
  cy : ℝ
  minorRadius : ℝ
  majorRadius : ℝ
  angle : ℝ

/-- `Detector3D._extract_observation(pupil_datum)` (detector_3d.py:305-321),
restricted to the ellipse it builds from the raw datum (center in pixels,
axes in pixels, angle in degrees) and the camera resolution: center is
shifted by (-width/2, -height/2), axes are halved, and the angle becomes
`(angle - 90) * π / 180`. -/
def detector_extract_ellipse (width height cx cy axisMinor axisMajor
    angleDeg : ℝ) : EllipseParams :=
  ⟨cx - width / 2, cy - height / 2, axisMinor / 2, axisMajor / 2,
   (angleDeg - 90) * Real.pi / 180⟩

/-- `TwoSphereModel._extract_ellipse(pupil_datum)`
(two_sphere_model.py:57-67): center is `(+(cx - width/2), -(cy - height/2))`,
axes are halved, and the angle becomes `-(angle + 90) * π / 180`. -/
def model_extract_ellipse (width height cx cy axisMinor axisMajor
    angleDeg : ℝ) : EllipseParams :=
  ⟨cx - width / 2, -(cy - height / 2), axisMinor / 2, axisMajor / 2,
   -(angleDeg + 90) * Real.pi / 180⟩

end RealGeometry

/-! ## Claim C4 — the model update schedule -/

/-- Claim C4 (amended): for calls to `_ModelUpdateSchedule.is_update_due`:
the first call on a fresh schedule returns true; an unpaused call within
the warmup window returns true; after the warmup window a call returns
true exactly when either no steady-phase update has been recorded yet
(`_last_update` is unset — in particular the first post-warmup check
always returns true, regardless of the elapsed time since the last
true-returning warmup call) or the elapsed time since the last recorded
update exceeds `update_interval`; consequently, once a post-warmup call
has returned true, a second post-warmup call less than `update_interval`
later returns false; while paused every call returns false and mutates
nothing; and after `resume()` the next call returns true. -/
theorem C4_schedule_phases :
    (∀ ui wd t, ((ScheduleState.init ui wd).isUpdateDue t).1 = true) ∧
    (∀ (s : ScheduleState) (t t0 : ℚ), s.paused = false →
      s.warmupStart = some t0 → t - t0 < s.warmupDuration →
      (s.isUpdateDue t).1 = true) ∧
    (∀ (s : ScheduleState) (t t0 : ℚ), s.paused = false →
      s.warmupStart = some t0 → ¬(t - t0 < s.warmupDuration) →
      s.lastUpdate = none → (s.isUpdateDue t).1 = true) ∧
    (∀ (s : ScheduleState) (t t0 lu : ℚ), s.paused = false →
      s.warmupStart = some t0 → ¬(t - t0 < s.warmupDuration) →
      s.lastUpdate = some lu →
      ((s.isUpdateDue t).1 = true ↔ t - lu > s.updateInterval)) ∧
    (∀ (s : ScheduleState) (t1 t2 t0 : ℚ), s.paused = false →
      s.warmupStart = some t0 → ¬(t1 - t0 < s.warmupDuration) → t1 ≤ t2 →
      (s.isUpdateDue t1).1 = true → t2 - t1 < s.updateInterval →
      (((s.isUpdateDue t1).2).isUpdateDue t2).1 = false) ∧
    (∀ (s : ScheduleState) (t : ℚ), s.paused = true →
      s.isUpdateDue t = (false, s)) ∧
    (∀ (s : ScheduleState) (t : ℚ), (s.resume.isUpdateDue t).1 = true) := by
  refine ⟨?_, ?_, ?_, ?_, ?_, ?_, ?_⟩
  · intro ui wd t
    simp [ScheduleState.init, ScheduleState.isUpdateDue]
  · rintro ⟨ui, wd, ws, p, lu⟩ t t0 hp hw hlt
    cases hp; cases hw
    simp only [ScheduleState.isUpdateDue] at hlt ⊢
    simp [hlt]
  · rintro ⟨ui, wd, ws, p, lu⟩ t t0 hp hw hge hlu
    cases hp; cases hw; cases hlu
    simp only [ScheduleState.isUpdateDue] at hge ⊢
    simp [hge]
  · rintro ⟨ui, wd, ws, p, lu⟩ t t0 lu0 hp hw hge hlu
    cases hp; cases hw; cases hlu
    simp only [ScheduleState.isUpdateDue] at hge ⊢
    simp only [if_neg hge, Bool.false_eq_true, if_false]
    by_cases h : t - lu0 > ui <;> simp [h]
  · rintro ⟨ui, wd, ws, p, lu⟩ t1 t2 t0 hp hw hge hmono h1 hlt
    cases hp; cases hw
    have hge2 : ¬(t2 - t0 < wd) := fun h => hge (by linarith)
    have hlt2 : ¬(t2 - t1 > ui) := by linarith
    simp only [ScheduleState.isUpdateDue] at hge hge2 h1 ⊢
    cases lu with
    | none =>
      simp only [if_neg hge, Bool.false_eq_true, if_false] at h1 ⊢
      simp [if_neg hge2, hlt2]
    | some lu0 =>
      simp only [if_neg hge, Bool.false_eq_true, if_false] at h1 ⊢
      by_cases h : t1 - lu0 > ui
      · simp only [if_pos h] at h1 ⊢
        simp [if_neg hge2, hlt2]
      · simp [h] at h1
  · rintro ⟨ui, wd, ws, p, lu⟩ t hp
    cases hp
    simp [ScheduleState.isUpdateDue]
  · rintro ⟨ui, wd, ws, p, lu⟩ t
    simp only [ScheduleState.resume, ScheduleState.isUpdateDue]
    cases ws with
    | none => simp
    | some w0 =>
      by_cases h : t - w0 < wd <;> simp [h]

/-- Witness for C4: a concrete post-warmup steady-phase check. The
schedule has interval 10 and warmup 5, warmup started at time 0, the
last recorded update was at time 6; the check at time 20 returns true. -/
theorem C4_schedule_phases_witness :
    (ScheduleState.isUpdateDue ⟨10, 5, some 0, false, some 6⟩ 20).1 = true :=
  (C4_schedule_phases.2.2.2.1 ⟨10, 5, some 0, false, some 6⟩ 20 0 6 rfl rfl
    (by norm_num) rfl).mpr (by norm_num)

/-- Counterexample to C4 as stated: with update interval 10 and warmup
duration 5, the first call at time 0 returns true (and starts the warmup
window), and the call at time 6 is past the warmup window yet also
returns true, although only 6 seconds — less than the 10-second update
interval — have elapsed since the last true-returning call: after the
warmup window, "returns true only if the elapsed time since the last
true-returning call exceeds update_interval" fails on the first steady-
phase check, because warmup calls never set `_last_update`. -/
theorem C4_counterexample :
    ((ScheduleState.init 10 5).isUpdateDue 0).1 = true ∧
    ((((ScheduleState.init 10 5).isUpdateDue 0).2).isUpdateDue 6).1 = true ∧
    ¬((6 : ℚ) - 0 < 5) ∧ ¬((6 : ℚ) - 0 > 10) := by
  refine ⟨?_, ?_, by norm_num, by norm_num⟩
  · simp [ScheduleState.init, ScheduleState.isUpdateDue]
  · norm_num [ScheduleState.init, ScheduleState.isUpdateDue]

/-! ## Claim C1 — `update_models` failure handling -/

/-- Adding an observation never changes a tier's sphere center. -/
@[simp]
lemma TierState.addObservation_sphereCenter (t : TierState) (c : ℚ) :
    (t.addObservation c).sphereCenter = t.sphereCenter := by
  unfold TierState.addObservation
  split <;> rfl

/-- Adding an observation never changes a tier's corrected sphere
center. -/
@[simp]
lemma TierState.addObservation_correctedSphereCenter (t : TierState)
    (c : ℚ) :
    (t.addObservation c).correctedSphereCenter = t.correctedSphereCenter := by
  unfold TierState.addObservation
  split <;> rfl

/-- Adding an observation never empties a storage. -/
lemma TierState.addObservation_count_ne_zero {t : TierState} (c : ℚ)
    (h : 0 < t.nObservations) : (t.addObservation c).nObservations ≠ 0 := by
  unfold TierState.addObservation
  split
  · omega
  · simp

/-- The six stored sphere-center estimates of the three tiers, in the
order short term, long term, ultra long term. -/
def tierCenters (d : DetectorState) :
    (V3q × V3q) × (V3q × V3q) × (V3q × V3q) :=
  ((d.shortTerm.sphereCenter, d.shortTerm.correctedSphereCenter),
   (d.longTerm.sphereCenter, d.longTerm.correctedSphereCenter),
   (d.ultraLongTerm.sphereCenter, d.ultraLongTerm.correctedSphereCenter))

/-- Claim C1 (amended): in an `update_models` cycle in which all three
storages are non-empty, a numerical failure raised by one of the
least-squares fits is caught and logged, and the fitting sequence stops
at the failing call — but the cycle is not atomic: every tier whose refit
completed before the failing call keeps its freshly refitted
`sphere_center` and `corrected_sphere_center`, while the failing tier and
all later tiers keep their values from before the call. Concretely,
writing the per-tier center pairs as (short, long, ultra): an
ultra-long-term failure (only possible when that refit is due) leaves all
tiers unchanged; a long-term failure (when due) leaves short and long
unchanged and commits the ultra-long-term refit that preceded it (when
due); a short-term failure leaves short unchanged and commits the
ultra-long-term and long-term refits that preceded it (when due). -/
theorem C1_update_models_partial_persistence
    (d : DetectorState) (conf ts : ℚ) (ue le se : Except Unit (V3q × V3q))
    (e f : V3q × V3q)
    (h1 : 0 < d.shortTerm.nObservations)
    (h2 : 0 < d.longTerm.nObservations)
    (h3 : 0 < d.ultraLongTerm.nObservations) :
    ((d.ultSchedule.isUpdateDue ts).1 = true →
      tierCenters (update_models d conf ts (.error ()) le se) =
        tierCenters d) ∧
    ((d.ultSchedule.isUpdateDue ts).1 = true →
      (d.longSchedule.isUpdateDue ts).1 = true →
      tierCenters (update_models d conf ts (.ok e) (.error ()) se) =
        ((tierCenters d).1, (tierCenters d).2.1, e)) ∧
    ((d.ultSchedule.isUpdateDue ts).1 = false →
      (d.longSchedule.isUpdateDue ts).1 = true →
      tierCenters (update_models d conf ts ue (.error ()) se) =
        tierCenters d) ∧
    ((d.ultSchedule.isUpdateDue ts).1 = true →
      (d.longSchedule.isUpdateDue ts).1 = true →
      tierCenters (update_models d conf ts (.ok e) (.ok f) (.error ())) =
        ((tierCenters d).1, f, e)) ∧
    ((d.ultSchedule.isUpdateDue ts).1 = true →
      (d.longSchedule.isUpdateDue ts).1 = false →
      tierCenters (update_models d conf ts (.ok e) le (.error ())) =
        ((tierCenters d).1, (tierCenters d).2.1, e)) ∧
    ((d.ultSchedule.isUpdateDue ts).1 = false →
      (d.longSchedule.isUpdateDue ts).1 = true →
      tierCenters (update_models d conf ts ue (.ok f) (.error ())) =
        ((tierCenters d).1, f, (tierCenters d).2.2)) ∧
    ((d.ultSchedule.isUpdateDue ts).1 = false →
      (d.longSchedule.isUpdateDue ts).1 = false →
      tierCenters (update_models d conf ts ue le (.error ())) =
        tierCenters d) := by
  have hg : ∀ ue le se : Except Unit (V3q × V3q),
      update_models d conf ts ue le se =
        match updateModelsTry
          { d with
            shortTerm := d.shortTerm.addObservation conf
            longTerm := d.longTerm.addObservation conf
            ultraLongTerm := d.ultraLongTerm.addObservation conf }
          ts ue le se with
        | .ok dFinal => dFinal
        | .error dFinal => dFinal := by
    intro ue le se
    unfold update_models
    rw [if_neg]
    push_neg
    exact ⟨TierState.addObservation_count_ne_zero conf h1,
      TierState.addObservation_count_ne_zero conf h2,
      TierState.addObservation_count_ne_zero conf h3⟩
  refine ⟨?_, ?_, ?_, ?_, ?_, ?_, ?_⟩
  · intro hu
    simp [hg, updateModelsTry, hu, tierCenters, TierState.setEstimate]
  · intro hu hl
    simp [hg, updateModelsTry, hu, hl, tierCenters, TierState.setEstimate]
  · intro hu hl
    simp [hg, updateModelsTry, hu, hl, tierCenters, TierState.setEstimate]
  · intro hu hl
    simp [hg, updateModelsTry, hu, hl, tierCenters, TierState.setEstimate]
  · intro hu hl
    simp [hg, updateModelsTry, hu, hl, tierCenters, TierState.setEstimate]
  · intro hu hl
    simp [hg, updateModelsTry, hu, hl, tierCenters, TierState.setEstimate]
  · intro hu hl
    simp [hg, updateModelsTry, hu, hl, tierCenters, TierState.setEstimate]

/-- Witness for C1: a concrete cycle. All tiers start at center
(0, 0, 35) with one stored observation; both schedules are fresh, so
both refits are due; the ultra-long-term fit succeeds with (1, 2, 3)
(corrected (4, 5, 6)), then the long-term fit raises: the returned state
keeps short and long term at (0, 0, 35) but the ultra-long-term tier at
its freshly refitted center. -/
theorem C1_update_models_witness :
    tierCenters (update_models
      ⟨⟨⟨0, 0, 35⟩, ⟨0, 0, 35⟩, 1, 0⟩, ⟨⟨0, 0, 35⟩, ⟨0, 0, 35⟩, 1, 0⟩,
        ⟨⟨0, 0, 35⟩, ⟨0, 0, 35⟩, 1, 0⟩,
        ScheduleState.init 1 5, ScheduleState.init 10 5⟩
      1 0 (.ok (⟨1, 2, 3⟩, ⟨4, 5, 6⟩)) (.error ())
      (.ok (⟨7, 7, 7⟩, ⟨7, 7, 7⟩))) =
    ((⟨0, 0, 35⟩, ⟨0, 0, 35⟩), (⟨0, 0, 35⟩, ⟨0, 0, 35⟩),
      (⟨1, 2, 3⟩, ⟨4, 5, 6⟩)) := by
  have h := (C1_update_models_partial_persistence
    ⟨⟨⟨0, 0, 35⟩, ⟨0, 0, 35⟩, 1, 0⟩, ⟨⟨0, 0, 35⟩, ⟨0, 0, 35⟩, 1, 0⟩,
      ⟨⟨0, 0, 35⟩, ⟨0, 0, 35⟩, 1, 0⟩,
      ScheduleState.init 1 5, ScheduleState.init 10 5⟩
    1 0 (.error ()) (.error ()) (.ok (⟨7, 7, 7⟩, ⟨7, 7, 7⟩))
    (⟨1, 2, 3⟩, ⟨4, 5, 6⟩) (⟨0, 0, 0⟩, ⟨0, 0, 0⟩)
    (by norm_num) (by norm_num) (by norm_num)).2.1
    (by simp [ScheduleState.init, ScheduleState.isUpdateDue])
    (by simp [ScheduleState.init, ScheduleState.isUpdateDue])
  simpa [tierCenters] using h

/-- Counterexample to C1 as stated: in the concrete failing cycle of the
witness above — all three storages non-empty, the ultra-long-term refit
due and successful with center (1, 2, 3), the long-term refit due and
raising — the ultra-long-term tier's `sphere_center` after the call is
(1, 2, 3), not its pre-call value (0, 0, 35): the completed
ultra-long-term refit persists across the caught failure, so the cycle's
model state is not left unchanged. -/
theorem C1_counterexample :
    (update_models
      ⟨⟨⟨0, 0, 35⟩, ⟨0, 0, 35⟩, 1, 0⟩, ⟨⟨0, 0, 35⟩, ⟨0, 0, 35⟩, 1, 0⟩,
        ⟨⟨0, 0, 35⟩, ⟨0, 0, 35⟩, 1, 0⟩,
        ScheduleState.init 1 5, ScheduleState.init 10 5⟩
      1 0 (.ok (⟨1, 2, 3⟩, ⟨4, 5, 6⟩)) (.error ())
      (.ok (⟨7, 7, 7⟩, ⟨7, 7, 7⟩))).ultraLongTerm.sphereCenter = ⟨1, 2, 3⟩ ∧
    (⟨1, 2, 3⟩ : V3q) ≠ ⟨0, 0, 35⟩ := by
  constructor
  · norm_num [update_models, updateModelsTry, TierState.addObservation,
      TierState.setEstimate, ScheduleState.init, ScheduleState.isUpdateDue]
  · intro h
    cases h

/-! ## Claims C5, C6, C7 — the per-frame prediction path -/

/-- Claim C5 (confirmed): in `Detector3D._predict_pupil_circle`, if the
observation's confidence exceeds the primary (swirski) threshold, the
returned pupil circle combines the short-term model's predicted normal
with the long-term model's predicted center and radius, and the
confidence is not overwritten; otherwise the 3D surface search is
invoked with the Kalman filter's fallback circle as best guess, its
circle is returned, and the confidence is overwritten with the search's
confidence. -/
theorem C5_predict_pupil_circle_branches
    (thresholdSwirski thresholdKalman : ℚ) (search3d : CircleQ → CircleQ × ℚ)
    (kalmanCircle shortPrediction longPrediction : CircleQ) (conf : ℚ) :
    (thresholdSwirski < conf →
      (detector_predict_pupil_circle thresholdSwirski thresholdKalman
        search3d kalmanCircle shortPrediction longPrediction conf).1 =
          ⟨longPrediction.center, shortPrediction.normal,
            longPrediction.radius⟩ ∧
      (detector_predict_pupil_circle thresholdSwirski thresholdKalman
        search3d kalmanCircle shortPrediction longPrediction conf).2.1 =
          conf) ∧
    (¬ thresholdSwirski < conf →
      ((detector_predict_pupil_circle thresholdSwirski thresholdKalman
          search3d kalmanCircle shortPrediction longPrediction conf).1,
       (detector_predict_pupil_circle thresholdSwirski thresholdKalman
          search3d kalmanCircle shortPrediction longPrediction conf).2.1) =
        search3d kalmanCircle) := by
  constructor <;> intro h <;>
    simp [detector_predict_pupil_circle, h]

/-- Witness for C5: a concrete high-confidence frame. With swirski
threshold 7/10 and confidence 9/10, the prediction is the short-term
normal (0, 0, 1) combined with long-term center (1, 1, 20) and radius 3,
and the confidence stays 9/10. -/
theorem C5_predict_pupil_circle_witness :
    (detector_predict_pupil_circle (7/10) (49/50)
      (fun _ => (CircleQ.null, 0)) CircleQ.null
      ⟨⟨5, 5, 5⟩, ⟨0, 0, 1⟩, 2⟩ ⟨⟨1, 1, 20⟩, ⟨1, 0, 0⟩, 3⟩ (9/10)).1 =
      ⟨⟨1, 1, 20⟩, ⟨0, 0, 1⟩, 3⟩ :=
  (C5_predict_pupil_circle_branches (7/10) (49/50)
    (fun _ => (CircleQ.null, 0)) CircleQ.null
    ⟨⟨5, 5, 5⟩, ⟨0, 0, 1⟩, 2⟩ ⟨⟨1, 1, 20⟩, ⟨1, 0, 0⟩, 3⟩ (9/10)
    |>.1 (by norm_num)).1

/-- Claim C6 (confirmed): `Detector3D._predict_from_3d_search` returns
the null circle with confidence 0 when the best guess is null or when no
edge pixels were extracted; otherwise it returns the circle built on the
sphere from the search's gaze vector, with confidence 0 when that circle
is null or its projection fails, and otherwise the number of final edges
divided by the projected circumference, clipped to [0, 1]. It is a total
function: no case raises. -/
theorem C6_search_failure_modes
    (sphereCenter : V3q) (eyeRadius : ℚ) (edges : List V3q)
    (searchGaze : V3q) (searchRadius : ℚ) (finalEdges : List V3q)
    (projCircumference : CircleQ → Option ℚ) (bestGuess : CircleQ) :
    (bestGuess.isNull = true →
      predict_from_3d_search sphereCenter eyeRadius edges searchGaze
        searchRadius finalEdges projCircumference bestGuess =
      (CircleQ.null, 0)) ∧
    (edges = [] →
      predict_from_3d_search sphereCenter eyeRadius edges searchGaze
        searchRadius finalEdges projCircumference bestGuess =
      (CircleQ.null, 0)) ∧
    (bestGuess.isNull = false → edges ≠ [] →
      predict_from_3d_search sphereCenter eyeRadius edges searchGaze
        searchRadius finalEdges projCircumference bestGuess =
      (⟨sphereCenter.add (V3q.smul eyeRadius searchGaze), searchGaze,
          searchRadius⟩,
        if searchRadius = 0 then 0
        else
          match projCircumference
            ⟨sphereCenter.add (V3q.smul eyeRadius searchGaze), searchGaze,
              searchRadius⟩ with
          | none => 0
          | some circumference =>
            min (max ((finalEdges.length : ℚ) / circumference) 0) 1)) := by
  refine ⟨?_, ?_, ?_⟩
  · intro h
    simp [predict_from_3d_search, h]
  · intro h
    subst h
    simp [predict_from_3d_search]
  · intro h1 h2
    have h1q : ¬ bestGuess.radius = 0 := by simpa [CircleQ.isNull] using h1
    have h2q : ¬ edges.length = 0 := by
      simpa [List.length_eq_zero] using h2
    simp only [predict_from_3d_search, CircleQ.isNull, beq_iff_eq,
      if_neg h1q, if_neg h2q]
    split_ifs with h3
    · rfl
    · rcases hc : projCircumference
        ⟨sphereCenter.add (V3q.smul eyeRadius searchGaze), searchGaze,
          searchRadius⟩ with _ | c <;> simp [hc]

/-- Witness for C6: a concrete successful search. Sphere center at the
origin, eye radius 2, one extracted edge, search gaze (0, 0, 1) with
radius 1, two final edges, projected circumference 4: the result is the
circle at (0, 0, 2) with confidence 2/4 = 1/2. -/
theorem C6_search_witness :
    predict_from_3d_search ⟨0, 0, 0⟩ 2 [⟨1, 1, 1⟩] ⟨0, 0, 1⟩ 1
      [⟨1, 1, 1⟩, ⟨2, 2, 2⟩] (fun _ => some 4) ⟨⟨0, 0, 0⟩, ⟨0, 0, 1⟩, 5⟩ =
    (⟨⟨0, 0, 2⟩, ⟨0, 0, 1⟩, 1⟩, 1/2) := by
  have h := (C6_search_failure_modes ⟨0, 0, 0⟩ 2 [⟨1, 1, 1⟩] ⟨0, 0, 1⟩ 1
    [⟨1, 1, 1⟩, ⟨2, 2, 2⟩] (fun _ => some 4) ⟨⟨0, 0, 0⟩, ⟨0, 0, 1⟩, 5⟩).2.2
    (by simp [CircleQ.isNull]) (by simp)
  rw [h]
  norm_num [V3q.add, V3q.smul]

/-- Claim C7 (amended): the Temporal (Kalman) Filter's correction step
receives the resulting pupil circle (via its spherical representation)
exactly when the possibly-overwritten observation confidence exceeds the
stricter correction (kalman) threshold AND the resulting circle is not
null: `_correct_kalman_filter` returns without correcting on a null
circle (detector_3d.py:370-372), so "confidence exceeds the threshold"
alone does not imply a correction. -/
theorem C7_kalman_correction_guard
    (thresholdSwirski thresholdKalman : ℚ) (search3d : CircleQ → CircleQ × ℚ)
    (kalmanCircle shortPrediction longPrediction : CircleQ) (conf : ℚ) :
    (detector_predict_pupil_circle thresholdSwirski thresholdKalman
        search3d kalmanCircle shortPrediction longPrediction conf).2.2 =
      some (detector_predict_pupil_circle thresholdSwirski thresholdKalman
        search3d kalmanCircle shortPrediction longPrediction conf).1 ↔
    (thresholdKalman <
        (detector_predict_pupil_circle thresholdSwirski thresholdKalman
          search3d kalmanCircle shortPrediction longPrediction conf).2.1 ∧
      (detector_predict_pupil_circle thresholdSwirski thresholdKalman
        search3d kalmanCircle shortPrediction longPrediction conf).1.isNull =
        false) := by
  simp only [detector_predict_pupil_circle]
  split_ifs with h1 h2 h3 <;> simp_all

/-- Counterexample to C7 as stated: with swirski threshold 7/10, kalman
threshold 49/50 and confidence 99/100, a frame whose long-term prediction
has radius 0 yields a null combined circle; the confidence 99/100 exceeds
the correction threshold, yet no correction is fed to the Kalman filter —
"if and only if" fails in the "if" direction. -/
theorem C7_counterexample :
    (detector_predict_pupil_circle (7/10) (49/50)
      (fun _ => (CircleQ.null, 0)) CircleQ.null
      ⟨⟨0, 0, 0⟩, ⟨0, 0, 0⟩, 0⟩ ⟨⟨0, 0, 0⟩, ⟨0, 0, 0⟩, 0⟩ (99/100)).2.2 =
      none ∧
    (49/50 : ℚ) <
      (detector_predict_pupil_circle (7/10) (49/50)
        (fun _ => (CircleQ.null, 0)) CircleQ.null
        ⟨⟨0, 0, 0⟩, ⟨0, 0, 0⟩, 0⟩ ⟨⟨0, 0, 0⟩, ⟨0, 0, 0⟩, 0⟩ (99/100)).2.1 := by
  constructor <;>
    norm_num [detector_predict_pupil_circle, CircleQ.isNull]

/-! ## Claims C10, C9 — `deep_sphere_estimate` cutoff logic and module
state -/

/-- Claim C10 (confirmed): in `deep_sphere_estimate`, when a previous fit
is recorded and its mean residual over the passed observations (the cost)
exceeds 2, every observation whose timestamp is earlier than the cutoff —
the timestamp of the observation at the maximum gradient of the
median-filtered residual sequence — is discarded, the sphere center is
fitted from the remaining observations only, and the cutoff is returned
as the second result; when no previous fit exists, or the cost is at most
2, all passed observations are used and the returned cutoff is `None`. -/
theorem C10_residual_cutoff
    (solve2 : Aux2 → V2q) (solve3 : Aux3 → V3q)
    (medianFilter gradient : List ℚ → List ℚ)
    (g : FitGlobals) (observations : List Obs) :
    (g.prevCenter = none →
      (deep_sphere_estimate solve2 solve3 medianFilter gradient g
          observations).1 =
        ((fitSphereCenter solve2 solve3 observations).1, none)) ∧
    (∀ pc pd, g.prevCenter = some pc → g.prevDisambiguation = some pd →
      fitCost pc pd observations ≤ 2 →
      (deep_sphere_estimate solve2 solve3 medianFilter gradient g
          observations).1 =
        ((fitSphereCenter solve2 solve3 observations).1, none)) ∧
    (∀ pc pd, g.prevCenter = some pc → g.prevDisambiguation = some pd →
      2 < fitCost pc pd observations →
      (deep_sphere_estimate solve2 solve3 medianFilter gradient g
          observations).1 =
        (((fitSphereCenter solve2 solve3 (observations.filter (fun o =>
            (((observations.get? (argmax (gradient (medianFilter
                (List.zipWith (fitResidual pc) observations
                  pd))))).map Obs.timestamp).getD 0) ≤ o.timestamp))).1),
          some (((observations.get? (argmax (gradient (medianFilter
              (List.zipWith (fitResidual pc) observations
                pd))))).map Obs.timestamp).getD 0))) := by
  refine ⟨?_, ?_, ?_⟩
  · intro h
    have hg : g = ⟨none, g.prevDisambiguation, g.prevT⟩ := by
      cases g
      simp_all
    rw [hg]
    rcases hd : g.prevDisambiguation with _ | pd <;>
      simp [deep_sphere_estimate]
  · intro pc pd h1 h2 hc
    have hg : g = ⟨some pc, some pd, g.prevT⟩ := by
      cases g
      simp_all
    rw [hg]
    simp only [deep_sphere_estimate]
    rw [if_neg (not_lt.mpr hc)]
  · intro pc pd h1 h2 hc
    have hg : g = ⟨some pc, some pd, g.prevT⟩ := by
      cases g
      simp_all
    rw [hg]
    simp only [deep_sphere_estimate]
    rw [if_pos hc]

/-- A sample pseudo-inverse collaborator for the 2D normal equations,
used in concrete runs: it returns the right-hand-side column. -/
def sampleSolve2 : Aux2 → V2q := fun a => ⟨a.v1, a.v2⟩

/-- A sample pseudo-inverse collaborator for the 3D normal equations,
used in concrete runs: it returns the right-hand-side column. -/
def sampleSolve3 : Aux3 → V3q := fun a => a.v

/-- A sample observation for a first model instance: zero auxiliary
data, gaze line through (1, 0) towards (1, 0). -/
def sampleObsA : Obs :=
  ⟨0, Aux2.zero, ⟨Mat3.zero, ⟨0, 0, 0⟩⟩, Aux3.zero, ⟨1, 0⟩, ⟨1, 0⟩,
    ⟨0, 0, 0⟩, ⟨0, 0, 0⟩⟩

/-- A sample observation for a second model instance at timestamp 10:
its first Dierkes line starts at (1, 0, 0) and its first auxiliary 3D
block is the identity with right-hand side (1, 1, 1). -/
def sampleObsB1 : Obs :=
  ⟨10, Aux2.zero, ⟨Mat3.one, ⟨1, 1, 1⟩⟩, Aux3.zero, ⟨1, 0⟩, ⟨1, 0⟩,
    ⟨1, 0, 0⟩, ⟨0, 0, 0⟩⟩

/-- A sample observation for a second model instance at timestamp 20:
its first Dierkes line starts at (3, 0, 0) and its first auxiliary 3D
block is the identity with right-hand side (10, 0, 0). -/
def sampleObsB2 : Obs :=
  ⟨20, Aux2.zero, ⟨Mat3.one, ⟨10, 0, 0⟩⟩, Aux3.zero, ⟨1, 0⟩, ⟨1, 0⟩,
    ⟨3, 0, 0⟩, ⟨0, 0, 0⟩⟩

/-- Witness for C10: a concrete high-cost run. With the previous center
at the origin and previous disambiguation [0, 0], the residuals over the
two sample observations are [1, 9] (cost 5 > 2); with identity median
filter and gradient, the maximum gradient sits at index 1, so the cutoff
is that observation's timestamp 20, only the second observation is kept,
and the fit over it returns (10, 0, 0). -/
theorem C10_residual_cutoff_witness :
    (deep_sphere_estimate sampleSolve2 sampleSolve3 id id
        ⟨some ⟨0, 0, 0⟩, some [0, 0], some 1⟩
        [sampleObsB1, sampleObsB2]).1 =
      (⟨10, 0, 0⟩, some 20) := by
  have h := (C10_residual_cutoff sampleSolve2 sampleSolve3 id id
    ⟨some ⟨0, 0, 0⟩, some [0, 0], some 1⟩ [sampleObsB1, sampleObsB2]).2.2
    ⟨0, 0, 0⟩ [0, 0] rfl rfl
    (by norm_num [fitCost, fitResidual, sampleObsB1, sampleObsB2,
      Obs.dierkesOriginAt, Obs.aux3dAt, V3q.sub, V3q.dot, Mat3.mulVec,
      Mat3.one])
  rw [h]
  norm_num [fitResidual, sampleObsB1, sampleObsB2, Obs.dierkesOriginAt,
    Obs.aux3dAt, V3q.sub, V3q.dot, Mat3.mulVec, Mat3.one, argmax, argmaxGo,
    List.filter, fitSphereCenter, sumAux2, sumAux3, disambIndices,
    disambIndex, sampleSolve2, sampleSolve3, Aux2.zero, Aux2.add,
    Aux3.zero, Aux3.add, Mat3.zero, Mat3.add, V3q.add, V2q.sub, V2q.dot,
    List.zipWith, List.foldl]

/-- Claim C9 (amended): the smoothing state of sphere-center fitting
(`prev_center`, `prev_disambiguation`, `prev_t`) is module-level mutable
state declared `global` inside the `deep_sphere_estimate` static method:
it is process-wide and shared by every `TwoSphereModel` instance, not
owned per instance. Two-run noninterference therefore fails: there are
observation sequences for two instances (and pseudo-inverse
collaborators) such that the sphere center the second instance obtains
differs depending on whether the first instance's estimate ran before it
on the shared state. -/
theorem C9_shared_module_state :
    ∃ (solve2 : Aux2 → V2q) (solve3 : Aux3 → V3q)
      (obsA obsB : List Obs),
      (deep_sphere_estimate solve2 solve3 id id
          (deep_sphere_estimate solve2 solve3 id id FitGlobals.initial
            obsA).2 obsB).1.1 ≠
      (deep_sphere_estimate solve2 solve3 id id FitGlobals.initial
          obsB).1.1 := by
  refine ⟨sampleSolve2, sampleSolve3, [sampleObsA, sampleObsA],
    [sampleObsB1, sampleObsB2], ?_⟩
  norm_num [deep_sphere_estimate, FitGlobals.initial, fitCost, fitResidual,
    sampleObsA, sampleObsB1, sampleObsB2, Obs.dierkesOriginAt, Obs.aux3dAt,
    V3q.sub, V3q.dot, Mat3.mulVec, Mat3.one, Mat3.zero, Mat3.add, argmax,
    argmaxGo, List.filter, fitSphereCenter, sumAux2, sumAux3,
    disambIndices, disambIndex, sampleSolve2, sampleSolve3, Aux2.zero,
    Aux2.add, Aux3.zero, Aux3.add, V3q.add, V2q.sub, V2q.dot,
    List.zipWith, List.foldl]

/-- Counterexample to C9 as stated: with the concrete sample data, the
second instance's fit over its two observations returns (11, 1, 1) when
run on a fresh process (no other instance has fitted yet), but returns
(10, 0, 0) when the first instance's fit over its own observations ran
before it — the first instance's run leaves `prev_center = (0, 0, 0)`
and `prev_disambiguation = [0, 0]` in the module globals, which pushes
the second instance's run into the high-cost cutoff branch and discards
its first observation. -/
theorem C9_counterexample :
    (deep_sphere_estimate sampleSolve2 sampleSolve3 id id
        (deep_sphere_estimate sampleSolve2 sampleSolve3 id id
          FitGlobals.initial [sampleObsA, sampleObsA]).2
        [sampleObsB1, sampleObsB2]).1.1 = ⟨10, 0, 0⟩ ∧
    (deep_sphere_estimate sampleSolve2 sampleSolve3 id id
        FitGlobals.initial [sampleObsB1, sampleObsB2]).1.1 = ⟨11, 1, 1⟩ ∧
    (⟨10, 0, 0⟩ : V3q) ≠ ⟨11, 1, 1⟩ := by
  refine ⟨?_, ?_, by simp⟩ <;>
    norm_num [deep_sphere_estimate, FitGlobals.initial, fitCost,
      fitResidual, sampleObsA, sampleObsB1, sampleObsB2,
      Obs.dierkesOriginAt, Obs.aux3dAt, V3q.sub, V3q.dot, Mat3.mulVec,
      Mat3.one, Mat3.zero, Mat3.add, argmax, argmaxGo, List.filter,
      fitSphereCenter, sumAux2, sumAux3, disambIndices, disambIndex,
      sampleSolve2, sampleSolve3, Aux2.zero, Aux2.add, Aux3.zero,
      Aux3.add, V3q.add, V2q.sub, V2q.dot, List.zipWith, List.foldl]

/-! ## Claim C3 — the two ellipse-extraction conventions -/

/-- Claim C3 (amended): on the same raw pupil datum and resolution, the
two extraction routines produce mirror-image ellipses rather than equal
ones: the x-centers and both half-axes agree, but
`TwoSphereModel._extract_ellipse` negates the y-center that
`Detector3D._extract_observation` keeps, and the two angles sum to
exactly -π — i.e. the model's ellipse is the detector's ellipse
reflected across the x-axis (orientations are negatives of one another
modulo π). The two conventions therefore agree only where the reflection
is the identity. -/
theorem C3_extraction_mirror (width height cx cy axisMinor axisMajor
    angleDeg : ℝ) :
    (detector_extract_ellipse width height cx cy axisMinor axisMajor
        angleDeg).cx =
      (model_extract_ellipse width height cx cy axisMinor axisMajor
        angleDeg).cx ∧
    (model_extract_ellipse width height cx cy axisMinor axisMajor
        angleDeg).cy =
      -(detector_extract_ellipse width height cx cy axisMinor axisMajor
        angleDeg).cy ∧
    (detector_extract_ellipse width height cx cy axisMinor axisMajor
        angleDeg).minorRadius =
      (model_extract_ellipse width height cx cy axisMinor axisMajor
        angleDeg).minorRadius ∧
    (detector_extract_ellipse width height cx cy axisMinor axisMajor
        angleDeg).majorRadius =
      (model_extract_ellipse width height cx cy axisMinor axisMajor
        angleDeg).majorRadius ∧
    (detector_extract_ellipse width height cx cy axisMinor axisMajor
        angleDeg).angle +
      (model_extract_ellipse width height cx cy axisMinor axisMajor
        angleDeg).angle = -Real.pi := by
  refine ⟨rfl, rfl, rfl, rfl, ?_⟩
  simp only [detector_extract_ellipse, model_extract_ellipse]
  ring

/-- Counterexample to C3 as stated: for the datum with center (96, 0),
axes (10, 10), angle 45° at resolution 192 × 192, the two routines
disagree on the center's y-coordinate (-96 versus 96), and their angles
differ by π/2, which is not an integer multiple of π — so the two
ellipses are neither equal nor of the same orientation. -/
theorem C3_counterexample :
    (detector_extract_ellipse 192 192 96 0 10 10 45).cy ≠
      (model_extract_ellipse 192 192 96 0 10 10 45).cy ∧
    ¬ ∃ k : ℤ,
      (detector_extract_ellipse 192 192 96 0 10 10 45).angle -
        (model_extract_ellipse 192 192 96 0 10 10 45).angle =
      (k : ℝ) * Real.pi := by
  constructor
  · simp only [detector_extract_ellipse, model_extract_ellipse]
    norm_num
  · rintro ⟨k, hk⟩
    simp only [detector_extract_ellipse, model_extract_ellipse] at hk
    have hk2 : Real.pi * (1 / 2) = Real.pi * (k : ℝ) := by ring_nf at hk ⊢; linarith
    have hk3 : (1 / 2 : ℝ) = (k : ℝ) :=
      mul_left_cancel₀ Real.pi_ne_zero hk2
    have hk4 : ((2 * k : ℤ) : ℝ) = 1 := by push_cast; linarith
    have hk5 : (2 * k : ℤ) = 1 := by exact_mod_cast hk4
    omega

/-! ## Claim C2 — pupil-circle rescaling in `predict_pupil_circle` -/

/-- Claim C2 (amended): for a disambiguated non-null circle,
`TwoSphereModel.predict_pupil_circle` returns the circle centered at the
nearest point on the eyeball sphere along the ray from the camera origin
through the unprojected circle's center, with radius equal to the ratio
(distance from the origin to that nearest point) over (distance from the
origin to the unprojected circle's center) — the circle's own radius is
NOT a factor (two_sphere_model.py:233-235): the claim's formula "radius
times the ratio" holds exactly when the unprojected circle has unit
radius. -/
theorem C2_predict_pupil_circle_scaling
    (nps : V3r → ℝ → V3r → V3r → V3r) (eyeRadius : ℝ)
    (sphereCenter : V3r) (circle3d : Circle3r) (h : circle3d.radius ≠ 0) :
    (predict_pupil_circle nps eyeRadius sphereCenter circle3d).center =
      nps sphereCenter eyeRadius ⟨0, 0, 0⟩ circle3d.center.normalize ∧
    (predict_pupil_circle nps eyeRadius sphereCenter circle3d).radius =
      (nps sphereCenter eyeRadius ⟨0, 0, 0⟩
          circle3d.center.normalize).norm / circle3d.center.norm := by
  unfold predict_pupil_circle
  rw [if_neg h]
  exact ⟨rfl, rfl⟩

/-- Witness for C2: a concrete prediction. The nearest-point collaborator
returns (0, 0, 5), the circle's center is (0, 0, 2): the predicted
center is (0, 0, 5) and the predicted radius is 5/2. -/
theorem C2_predict_pupil_circle_witness :
    (predict_pupil_circle (fun _ _ _ _ => ⟨0, 0, 5⟩) 12 ⟨0, 0, 10⟩
        ⟨⟨0, 0, 2⟩, ⟨0, 0, -1⟩, 2⟩).center = (⟨0, 0, 5⟩ : V3r) ∧
    (predict_pupil_circle (fun _ _ _ _ => ⟨0, 0, 5⟩) 12 ⟨0, 0, 10⟩
        ⟨⟨0, 0, 2⟩, ⟨0, 0, -1⟩, 2⟩).radius = 5 / 2 := by
  have h := C2_predict_pupil_circle_scaling (fun _ _ _ _ => ⟨0, 0, 5⟩) 12
    ⟨0, 0, 10⟩ ⟨⟨0, 0, 2⟩, ⟨0, 0, -1⟩, 2⟩ (by norm_num)
  refine ⟨h.1, ?_⟩
  rw [h.2]
  have h5 : V3r.norm ⟨0, 0, 5⟩ = 5 := by
    unfold V3r.norm
    rw [show ((0 : ℝ) ^ 2 + 0 ^ 2 + 5 ^ 2) = 5 ^ 2 by norm_num]
    exact Real.sqrt_sq (by norm_num)
  have h2 : V3r.norm ⟨0, 0, 2⟩ = 2 := by
    unfold V3r.norm
    rw [show ((0 : ℝ) ^ 2 + 0 ^ 2 + 2 ^ 2) = 2 ^ 2 by norm_num]
    exact Real.sqrt_sq (by norm_num)
  rw [h5, h2]

/-- Counterexample to C2 as stated: for the concrete prediction of the
witness, the returned radius is 5/2 — the bare distance ratio — while
the claim's formula (the unprojected circle's radius, here 2, multiplied
by that ratio) evaluates to 5: the code does not multiply by the
circle's radius. -/
theorem C2_counterexample :
    (predict_pupil_circle (fun _ _ _ _ => ⟨0, 0, 5⟩) 12 ⟨0, 0, 10⟩
        ⟨⟨0, 0, 2⟩, ⟨0, 0, -1⟩, 2⟩).radius = 5 / 2 ∧
    (⟨⟨0, 0, 2⟩, ⟨0, 0, -1⟩, 2⟩ : Circle3r).radius *
        (V3r.norm ⟨0, 0, 5⟩ / V3r.norm ⟨0, 0, 2⟩) = 5 ∧
    (5 / 2 : ℝ) ≠ 5 := by
  have h5 : V3r.norm ⟨0, 0, 5⟩ = 5 := by
    unfold V3r.norm
    rw [show ((0 : ℝ) ^ 2 + 0 ^ 2 + 5 ^ 2) = 5 ^ 2 by norm_num]
    exact Real.sqrt_sq (by norm_num)
  have h2 : V3r.norm ⟨0, 0, 2⟩ = 2 := by
    unfold V3r.norm
    rw [show ((0 : ℝ) ^ 2 + 0 ^ 2 + 2 ^ 2) = 2 ^ 2 by norm_num]
    exact Real.sqrt_sq (by norm_num)
  refine ⟨?_, by rw [h5, h2]; norm_num, by norm_num⟩
  unfold predict_pupil_circle
  rw [if_neg (by norm_num : ((⟨⟨0, 0, 2⟩, ⟨0, 0, -1⟩, 2⟩ :
    Circle3r)).radius ≠ 0)]
  simp only
  rw [h5, h2]

/-! ## Claim C8 — the disambiguation sign tests -/

/-- Normalizing the second vector does not change the sign test: the dot
product with the normalized vector is non-negative exactly when the dot
product with the vector itself is (the norm is a non-negative scalar,
and a zero vector yields 0 on both sides). -/
lemma dot_normalize_nonneg_iff (v u : V2r) :
    0 ≤ v.dot u.normalize ↔ 0 ≤ v.dot u := by
  have hn : v.dot u.normalize = v.dot u / u.norm := by
    unfold V2r.normalize V2r.dot
    ring
  rw [hn]
  rcases eq_or_lt_of_le (Real.sqrt_nonneg (u.x ^ 2 + u.y ^ 2)) with h0 | hpos
  · have hzero : u.norm = 0 := by
      unfold V2r.norm
      exact h0.symm
    have hle : u.x ^ 2 + u.y ^ 2 ≤ 0 := Real.sqrt_eq_zero'.mp hzero
    have hx : u.x = 0 := by nlinarith [sq_nonneg u.x, sq_nonneg u.y]
    have hy : u.y = 0 := by nlinarith [sq_nonneg u.x, sq_nonneg u.y]
    unfold V2r.dot
    simp [hx, hy, hzero]
  · have hpos2 : 0 < u.norm := hpos
    rw [le_div_iff₀ hpos2, zero_mul]

/-- Claim C8 (confirmed): both disambiguation sites implement the same
sign test. First, `TwoSphereModel._disambiguate_circle_3d_pair` returns
the pair's first member exactly when the dot product of (the projected
circle center minus the projected sphere center) with the projected
circle normal is non-negative, and the second member otherwise —
equivalently with the raw projected direction in place of the normalized
one the code uses. Second, inside `deep_sphere_estimate` the batched
test assigns disambiguation index 1 to an observation exactly when the
dot product of (its gaze origin minus the projected sphere center) with
its gaze direction is negative, and index 0 otherwise. -/
theorem C8_disambiguation_sign_tests :
    (∀ (focalLength : ℝ) (sphereCenter : V3r)
        (pair : Circle3r × Circle3r),
      disambiguate_circle_3d_pair focalLength sphereCenter pair =
        if 0 ≤ ((project_point_into_image_plane focalLength
              pair.1.center).sub
            (project_point_into_image_plane focalLength sphereCenter)).dot
            (project_line_into_image_plane focalLength pair.1.center
              pair.1.normal).2
        then pair.1 else pair.2) ∧
    (∀ (solve2 : Aux2 → V2q) (solve3 : Aux3 → V3q)
        (medianFilter gradient : List ℚ → List ℚ)
        (gd : Option (List ℕ)) (gt : Option ℚ) (observations : List Obs),
      (deep_sphere_estimate solve2 solve3 medianFilter gradient
          ⟨none, gd, gt⟩ observations).2.prevDisambiguation =
        some (observations.map (fun o =>
          if (o.gazeOrigin.sub (solve2 (sumAux2 observations))).dot
              o.gazeDir < 0
          then 1 else 0))) := by
  constructor
  · intro focalLength sphereCenter pair
    unfold disambiguate_circle_3d_pair
    exact if_congr (dot_normalize_nonneg_iff _ _) rfl rfl
  · intro solve2 solve3 medianFilter gradient gd gt observations
    cases gd <;>
      simp [deep_sphere_estimate, fitSphereCenter, disambIndices,
        disambIndex]
